import Mathlib

/-!
Verification of `src/tool_example/weather.py`, a CLI shim exposing a single
capability `get_weather` through two modes (`--schema`, `--execute`).

The embedding models:
  * the JSON values that Python's `json.loads` can return (`Json`),
  * `json.loads` itself (`Json.parse`, a recursive-descent JSON reader),
  * `json.dumps` with its default separators and `ensure_ascii` escaping
    (`Json.dumps`),
  * Python's f-string conversion of a value to text (`pyStr`, exact on
    non-float scalar values — see `Json.isExactScalar`),
  * the capability function `get_weather`, and
  * the `__main__` dispatcher (`runTool`), returning either the single line
    printed to standard output (normal exit, status 0) or the uncaught
    Python error that terminates the process with a non-zero status.
-/

/-- The values Python's `json.loads` can produce.  Python distinguishes
`int` from `float`; a float is modelled structurally as `m / 10^e`. -/
inductive Json where
  | null : Json
  | bool (b : Bool) : Json
  | num (n : Int) : Json
  | float (m : Int) (e : Nat) : Json
  | str (s : String) : Json
  | arr (elems : List Json) : Json
  | obj (fields : List (String × Json)) : Json

/-- Opening brace character (written via its code point). -/
def lbrace : Char := Char.ofNat 123

/-- Closing brace character (written via its code point). -/
def rbrace : Char := Char.ofNat 125

/-- JSON whitespace skipping (space, tab, newline, carriage return). -/
def skipWs : List Char → List Char
  | [] => []
  | c :: cs =>
    if c = ' ' ∨ c = '\t' ∨ c = '\n' ∨ c = '\r' then skipWs cs else c :: cs

/-- Value of a hexadecimal digit, if the character is one. -/
def hexVal (c : Char) : Option Nat :=
  if c.isDigit then some (c.toNat - 48)
  else if 'a' ≤ c ∧ c ≤ 'f' then some (c.toNat - 87)
  else if 'A' ≤ c ∧ c ≤ 'F' then some (c.toNat - 55)
  else none

/-- Prepend a character to the string component of a parse result. -/
def strCons (c : Char) (p : String × List Char) : String × List Char :=
  (String.mk (c :: p.1.data), p.2)

/-- Read the body of a JSON string after its opening quote, returning the
decoded string and the rest of the input.  Raw control characters are
rejected (as in Python's strict mode); `\uXXXX` escapes are decoded as a
single code unit (surrogate-pair recombination is not modelled; no input
considered here uses it). -/
def parseStringBody : List Char → Option (String × List Char)
  | [] => none
  | c :: cs =>
    if c = '"' then some ("", cs)
    else if c = '\\' then
      match cs with
      | [] => none
      | e :: cs2 =>
        if e = '"' then strCons '"' <$> parseStringBody cs2
        else if e = '\\' then strCons '\\' <$> parseStringBody cs2
        else if e = '/' then strCons '/' <$> parseStringBody cs2
        else if e = 'b' then strCons (Char.ofNat 8) <$> parseStringBody cs2
        else if e = 'f' then strCons (Char.ofNat 12) <$> parseStringBody cs2
        else if e = 'n' then strCons '\n' <$> parseStringBody cs2
        else if e = 'r' then strCons '\r' <$> parseStringBody cs2
        else if e = 't' then strCons '\t' <$> parseStringBody cs2
        else if e = 'u' then
          match cs2 with
          | a :: b :: c2 :: d :: cs3 =>
            match hexVal a, hexVal b, hexVal c2, hexVal d with
            | some x, some y, some z, some w =>
              strCons (Char.ofNat (((x * 16 + y) * 16 + z) * 16 + w)) <$>
                parseStringBody cs3
            | _, _, _, _ => none
          | _ => none
        else none
    else if c.toNat < 32 then none
    else strCons c <$> parseStringBody cs

/-- Numeric value of a list of decimal digits. -/
def digitsVal (ds : List Char) : Nat :=
  ds.foldl (fun a c => 10 * a + (c.toNat - 48)) 0

/-- Read the exponent part of a JSON number (after the `e`/`E`). -/
def parseExpPart (cs : List Char) : Option (Int × List Char) :=
  let (sgn, cs1) : Int × List Char :=
    match cs with
    | '+' :: rest => (1, rest)
    | '-' :: rest => (-1, rest)
    | _ => (1, cs)
  let (ds, cs2) := cs1.span (·.isDigit)
  if ds = [] then none else some (sgn * (digitsVal ds : Int), cs2)

/-- Assemble a parsed JSON number.  Without a fraction or exponent it is a
Python `int`; otherwise a Python `float`.  The float is kept as the exact
scaled decimal the text denotes, not rounded to an IEEE double as Python
stores it, so no claim theorem concludes anything about the rendering of
float values (see `Json.isExactScalar`). -/
def mkNumber (neg : Bool) (ipart fpart : List Char) (hasFrac : Bool)
    (expPart : Option Int) : Json :=
  match hasFrac, expPart with
  | false, none =>
    let i : Int := (digitsVal ipart : Int)
    .num (if neg then -i else i)
  | _, _ =>
    let m0 : Nat := digitsVal ipart * 10 ^ fpart.length + digitsVal fpart
    let e0 : Int := (fpart.length : Int) - expPart.getD 0
    let me : Nat × Nat :=
      if e0 ≤ 0 then (m0 * 10 ^ (-e0).toNat, 0) else (m0, e0.toNat)
    .float (if neg then -(me.1 : Int) else (me.1 : Int)) me.2

/-- Read a JSON number (RFC 8259 grammar: optional minus, integer part with
no leading zeros, optional fraction, optional exponent). -/
def parseNumber (cs : List Char) : Option (Json × List Char) :=
  let (neg, cs1) : Bool × List Char :=
    match cs with
    | '-' :: rest => (true, rest)
    | _ => (false, cs)
  let (ds, cs2) := cs1.span (·.isDigit)
  if ds = [] then none
  else if ds.length > 1 ∧ ds.headD '0' = '0' then none
  else
    let fr : List Char × List Char × Bool :=
      match cs2 with
      | '.' :: rest =>
        let (f, r) := rest.span (·.isDigit)
        (f, r, true)
      | _ => ([], cs2, false)
    let fds := fr.1
    let cs3 := fr.2.1
    let hasFrac := fr.2.2
    if hasFrac ∧ fds = [] then none
    else
      match cs3 with
      | 'e' :: rest =>
        (parseExpPart rest).map fun p => (mkNumber neg ds fds hasFrac (some p.1), p.2)
      | 'E' :: rest =>
        (parseExpPart rest).map fun p => (mkNumber neg ds fds hasFrac (some p.1), p.2)
      | _ => some (mkNumber neg ds fds hasFrac none, cs3)

mutual

/-- Fuel-indexed recursive-descent reader for one JSON value, modelling
`json.loads`.  Returns the value and the unconsumed input. -/
def parseVal : Nat → List Char → Option (Json × List Char)
  | 0, _ => none
  | Nat.succ fuel, cs =>
    match skipWs cs with
    | [] => none
    | c :: rest =>
      if c = 'n' then
        match rest with
        | 'u' :: 'l' :: 'l' :: r => some (.null, r)
        | _ => none
      else if c = 't' then
        match rest with
        | 'r' :: 'u' :: 'e' :: r => some (.bool true, r)
        | _ => none
      else if c = 'f' then
        match rest with
        | 'a' :: 'l' :: 's' :: 'e' :: r => some (.bool false, r)
        | _ => none
      else if c = '"' then
        (parseStringBody rest).map fun p => (.str p.1, p.2)
      else if c = '[' then
        match skipWs rest with
        | ']' :: r => some (.arr [], r)
        | cs2 => (parseElems fuel cs2).map fun p => (.arr p.1, p.2)
      else if c = lbrace then
        match skipWs rest with
        | [] => none
        | d :: r2 =>
          if d = rbrace then some (.obj [], r2)
          else (parseMembers fuel (d :: r2)).map fun p => (.obj p.1, p.2)
      else if c = '-' ∨ c.isDigit then parseNumber (c :: rest)
      else none

/-- Read the comma-separated elements of a non-empty JSON array, up to and
including the closing bracket. -/
def parseElems : Nat → List Char → Option (List Json × List Char)
  | 0, _ => none
  | Nat.succ fuel, cs => do
    let (v, r1) ← parseVal fuel cs
    match skipWs r1 with
    | ',' :: r2 => (parseElems fuel r2).map fun p => (v :: p.1, p.2)
    | ']' :: r2 => some ([v], r2)
    | _ => none

/-- Read the comma-separated members of a non-empty JSON object, up to and
including the closing brace. -/
def parseMembers : Nat → List Char → Option (List (String × Json) × List Char)
  | 0, _ => none
  | Nat.succ fuel, cs =>
    match skipWs cs with
    | '"' :: r1 => do
      let (k, r2) ← parseStringBody r1
      match skipWs r2 with
      | ':' :: r3 => do
        let (v, r4) ← parseVal fuel r3
        match skipWs r4 with
        | [] => none
        | d :: r5 =>
          if d = ',' then (parseMembers fuel r5).map fun p => ((k, v) :: p.1, p.2)
          else if d = rbrace then some ([(k, v)], r5)
          else none
      | _ => none
    | _ => none

end

/-- Model of Python's `json.loads`: read one JSON document and require that
only whitespace follows it.  `none` models a raised `JSONDecodeError`. -/
def Json.parse (s : String) : Option Json :=
  match parseVal (2 * s.length + 2) s.data with
  | some (j, rest) => if skipWs rest = [] then some j else none
  | none => none

/-- Hexadecimal digit character (lowercase, as Python emits). -/
def hexDigitChar (n : Nat) : Char :=
  if n < 10 then Char.ofNat (48 + n) else Char.ofNat (87 + n)

/-- Four-character lowercase hexadecimal rendering of a code unit. -/
def hex4 (n : Nat) : String :=
  String.mk [hexDigitChar (n / 4096 % 16), hexDigitChar (n / 256 % 16),
             hexDigitChar (n / 16 % 16), hexDigitChar (n % 16)]

/-- `\uXXXX` escape for a code point, with a surrogate pair beyond the BMP,
as Python's `ensure_ascii` serialization produces. -/
def uEscape (n : Nat) : String :=
  if n ≤ 65535 then "\\u" ++ hex4 n
  else
    let m := n - 65536
    "\\u" ++ hex4 (55296 + m / 1024) ++ "\\u" ++ hex4 (56320 + m % 1024)

/-- Serialization of one character inside a JSON string, following
`json.dumps` defaults (`ensure_ascii=True`). -/
def escChar (c : Char) : String :=
  if c = '"' then "\\\""
  else if c = '\\' then "\\\\"
  else if c = '\n' then "\\n"
  else if c = '\r' then "\\r"
  else if c = '\t' then "\\t"
  else if c.toNat = 8 then "\\b"
  else if c.toNat = 12 then "\\f"
  else if c.toNat < 32 ∨ c.toNat > 126 then uEscape c.toNat
  else String.singleton c

/-- A string rendered as a quoted JSON string literal. -/
def quoteJson (s : String) : String :=
  "\"" ++ String.join (s.data.map escChar) ++ "\""

/-- Decimal rendering of a Python float `m / 10^e` with a forced decimal
point.  This is only an approximation of Python's `repr`, which prints the
IEEE-double shortest form and switches to scientific form for small or
large magnitudes (`1e-05`, `1e+30`); accordingly no claim theorem
concludes anything about the text of a float value. -/
def floatRepr (m : Int) (e : Nat) : String :=
  if e = 0 then toString m ++ ".0"
  else
    let sign := if m < 0 then "-" else ""
    let ds := toString m.natAbs
    let padded :=
      if ds.length ≤ e then String.mk (List.replicate (e + 1 - ds.length) '0') ++ ds
      else ds
    sign ++ padded.take (padded.length - e) ++ "." ++ padded.drop (padded.length - e)

mutual

/-- Model of `json.dumps` with its default separators `", "` and `": "`,
preserving insertion order of object fields as Python dicts do. -/
def Json.dumps : Json → String
  | .null => "null"
  | .bool true => "true"
  | .bool false => "false"
  | .num n => toString n
  | .float m e => floatRepr m e
  | .str s => quoteJson s
  | .arr xs => "[" ++ dumpsElems xs ++ "]"
  | .obj fs => "\x7b" ++ dumpsMembers fs ++ "\x7d"

/-- Array elements, comma-separated. -/
def dumpsElems : List Json → String
  | [] => ""
  | [x] => Json.dumps x
  | x :: y :: rest => Json.dumps x ++ ", " ++ dumpsElems (y :: rest)

/-- Object members, comma-separated `"key": value` pairs. -/
def dumpsMembers : List (String × Json) → String
  | [] => ""
  | [kv] => quoteJson kv.1 ++ ": " ++ Json.dumps kv.2
  | kv :: m :: rest => quoteJson kv.1 ++ ": " ++ Json.dumps kv.2 ++ ", " ++ dumpsMembers (m :: rest)

end

mutual

/-- Python `repr` of a `json.loads` value (the form used for values nested
inside containers).  String quoting is the simple single-quote form
without the escaping and quote-switching Python's `repr` performs, and
floats go through `floatRepr`; both are approximations, so no claim
theorem concludes anything about the rendered text of a container value
(see `Json.isExactScalar`). -/
def pyRepr : Json → String
  | .null => "None"
  | .bool true => "True"
  | .bool false => "False"
  | .num n => toString n
  | .float m e => floatRepr m e
  | .str s => "\x27" ++ s ++ "\x27"
  | .arr xs => "[" ++ pyReprElems xs ++ "]"
  | .obj fs => "\x7b" ++ pyReprMembers fs ++ "\x7d"

/-- List elements under `repr`, comma-separated. -/
def pyReprElems : List Json → String
  | [] => ""
  | [x] => pyRepr x
  | x :: y :: rest => pyRepr x ++ ", " ++ pyReprElems (y :: rest)

/-- Dict members under `repr`, comma-separated. -/
def pyReprMembers : List (String × Json) → String
  | [] => ""
  | [kv] => "\x27" ++ kv.1 ++ "\x27: " ++ pyRepr kv.2
  | kv :: m :: rest => "\x27" ++ kv.1 ++ "\x27: " ++ pyRepr kv.2 ++ ", " ++ pyReprMembers (m :: rest)

end

/-- Python `str` of a `json.loads` value, as an f-string interpolation
performs: a string interpolates as itself, everything else as its `repr`. -/
def pyStr : Json → String
  | .str s => s
  | j => pyRepr j

/-- Python dict lookup on the parsed members: with a repeated key the last
binding wins, exactly as `json.loads` builds the dict. -/
def objGet (fields : List (String × Json)) (k : String) : Option Json :=
  (fields.reverse.find? fun p => p.1 == k).map (·.2)

/-- Field lookup on a JSON value when it is an object. -/
def Json.getField : Json → String → Option Json
  | .obj fs, k => objGet fs k
  | _, _ => none

/-- Whether a JSON value is an object (a Python dict, the only `json.loads`
result with a `.get` method). -/
def Json.isObj : Json → Bool
  | .obj _ => true
  | _ => false

/-- `get_weather` from `weather.py`: the mock capability. -/
def get_weather (location : String) : String :=
  "The weather in " ++ location ++ " is sunny and 72°F"

/-- The schema literal built in the `--schema` branch of `weather.py`,
fields in source order. -/
def schemaJson : Json :=
  .obj [("title", .str "get_weather"),
        ("description", .str "Get the current weather for a location"),
        ("type", .str "object"),
        ("properties", .obj [("location",
            .obj [("type", .str "string"),
                  ("description", .str "The location to get weather for")])]),
        ("required", .arr [.str "location"])]

/-- The usage line printed by the fallthrough branch of `weather.py`. -/
def usageMessage : String :=
  "Usage: weather.py --schema | weather.py --execute \x27\x7b\"location\": \"New York\"\x7d\x27"

/-- The uncaught Python errors the dispatcher can die with: `json.loads`
raising on malformed input, or `.get` missing on a non-dict value. -/
inductive PyError where
  | jsonDecodeError : PyError
  | attributeError : PyError
deriving DecidableEq

/-- Sentence printed by the `--execute` branch once the payload has parsed
to a dict: `get_weather(args.get("location", "unknown"))`, with the
extracted value interpolated by the f-string inside `get_weather`. -/
def executeResult (fields : List (String × Json)) : String :=
  get_weather (pyStr ((objGet fields "location").getD (.str "unknown")))

/-- The `__main__` dispatcher of `weather.py` as a function from the full
argument vector (`sys.argv`, script name included) to either the single
line printed on standard output (normal exit, status 0) or the uncaught
error that terminates the process with non-zero status. -/
def runTool (argv : List String) : Except PyError String :=
  if argv.length > 1 ∧ argv.getD 1 "" = "--schema" then
    .ok (Json.dumps schemaJson)
  else if argv.length > 2 ∧ argv.getD 1 "" = "--execute" then
    match Json.parse (argv.getD 2 "") with
    | none => .error .jsonDecodeError
    | some (.obj fields) => .ok (executeResult fields)
    | some _ => .error .attributeError
  else
    .ok usageMessage

/-- Any argument vector whose second entry is `--schema` takes the schema
branch, whatever else is present. -/
theorem schema_branch (a0 : String) (rest : List String) :
    runTool (a0 :: "--schema" :: rest) = .ok (Json.dumps schemaJson) := by
  simp [runTool]

/-- Any argument vector whose second entry is `--execute` with a payload
present dispatches on the parse of that payload. -/
theorem exec_branch (a0 s : String) (rest : List String) :
    runTool (a0 :: "--execute" :: s :: rest) =
      match Json.parse s with
      | none => .error .jsonDecodeError
      | some (.obj fields) => .ok (executeResult fields)
      | some _ => .error .attributeError := by
  simp [runTool]

set_option maxRecDepth 4000 in
/-- Reading back the serialized schema recovers the schema value. -/
theorem parse_dumps_schema : Json.parse (Json.dumps schemaJson) = some schemaJson := by
  rfl

/-- C1: for every string location (including the empty string),
`get_weather` returns exactly `"The weather in {location} is sunny and
72°F"` with the location substituted; it is a total pure function, so it
has no side effects and never fails. -/
theorem get_weather_format (location : String) :
    get_weather location = "The weather in " ++ location ++ " is sunny and 72°F" := rfl

set_option maxRecDepth 4000 in
/-- C2: when the first CLI argument is `--schema`, the program prints a
single line of JSON which, parsed back, has title `get_weather`, type
`object`, required `["location"]`, and a `location` property of type
`string`. -/
theorem schema_mode_output (a0 : String) (rest : List String) :
    runTool (a0 :: "--schema" :: rest) = .ok (Json.dumps schemaJson) ∧
    (Json.dumps schemaJson).data.all (fun c => c != '\n') = true ∧
    Json.parse (Json.dumps schemaJson) = some schemaJson ∧
    schemaJson.getField "title" = some (.str "get_weather") ∧
    schemaJson.getField "type" = some (.str "object") ∧
    schemaJson.getField "required" = some (.arr [.str "location"]) ∧
    ((schemaJson.getField "properties").bind
        (fun p => p.getField "location")).bind (fun l => l.getField "type") =
      some (.str "string") :=
  ⟨schema_branch a0 rest, rfl, parse_dumps_schema, rfl, rfl, rfl, rfl⟩

/-- C3: in execute mode, a payload that parses to an object with no
"location" key invokes the capability with the literal string "unknown";
in particular `--execute` on an empty object prints
"The weather in unknown is sunny and 72°F". -/
theorem execute_missing_location_defaults (a0 s : String) (rest : List String)
    (fields : List (String × Json))
    (hp : Json.parse s = some (Json.obj fields))
    (hmiss : objGet fields "location" = none) :
    runTool (a0 :: "--execute" :: s :: rest) = .ok (get_weather "unknown") ∧
    get_weather "unknown" = "The weather in unknown is sunny and 72°F" := by
  refine ⟨?_, rfl⟩
  rw [exec_branch a0 s rest, hp]
  simp [executeResult, hmiss, pyStr]

/-- C3 witness: the concrete invocation `--execute` with payload `{}`. -/
theorem execute_missing_location_defaults_witness :
    Json.parse "\x7b\x7d" = some (Json.obj []) ∧
    objGet [] "location" = none ∧
    runTool ["weather.py", "--execute", "\x7b\x7d"] = .ok (get_weather "unknown") :=
  ⟨rfl, rfl, (execute_missing_location_defaults "weather.py" "\x7b\x7d" [] [] rfl rfl).1⟩

/-- C6: every invocation that is neither schema mode nor execute mode with
a payload — first argument absent, unrecognized, or `--execute` with no
second argument — prints the fixed usage line and exits normally. -/
theorem usage_fallthrough (argv : List String)
    (h : (argv.getD 1 "" ≠ "--schema" ∧ argv.getD 1 "" ≠ "--execute") ∨
         (argv.getD 1 "" = "--execute" ∧ ¬argv.length > 2)) :
    runTool argv = .ok usageMessage := by
  have h1 : ¬(argv.length > 1 ∧ argv.getD 1 "" = "--schema") := by
    rcases h with ⟨hs, -⟩ | ⟨he, -⟩
    · exact fun hc => hs hc.2
    · exact fun hc => by rw [he] at hc; exact absurd hc.2 (by decide)
  have h2 : ¬(argv.length > 2 ∧ argv.getD 1 "" = "--execute") := by
    rcases h with ⟨-, hne⟩ | ⟨-, hl⟩
    · exact fun hc => hne hc.2
    · exact fun hc => hl hc.1
  simp only [runTool, if_neg h1, if_neg h2]

/-- C6 witness: `--execute` with no second argument prints the usage
line. -/
theorem usage_fallthrough_witness :
    (List.getD ["weather.py", "--execute"] 1 "" = "--execute" ∧
      ¬List.length ["weather.py", "--execute"] > 2) ∧
    runTool ["weather.py", "--execute"] = .ok usageMessage :=
  ⟨⟨rfl, by decide⟩, usage_fallthrough ["weather.py", "--execute"] (Or.inr ⟨rfl, by decide⟩)⟩

/-- C7: the schema stays consistent with the execution path: its required
list is exactly ["location"], its properties mapping has exactly the key
"location", and the execute branch reads exactly the "location" key — its
output depends on nothing else in the parsed arguments. -/
theorem schema_consistent_with_execution :
    schemaJson.getField "required" = some (Json.arr [Json.str "location"]) ∧
    (schemaJson.getField "properties").map
        (fun p => match p with | Json.obj fs => fs.map Prod.fst | _ => []) =
      some ["location"] ∧
    (∀ f1 f2 : List (String × Json),
      objGet f1 "location" = objGet f2 "location" →
        executeResult f1 = executeResult f2) := by
  refine ⟨rfl, rfl, fun f1 f2 h => ?_⟩
  simp [executeResult, h]

/-- C7 witness: two argument dicts agreeing on "location" (one with an
extra key) produce the same printed sentence. -/
theorem schema_consistent_with_execution_witness :
    objGet [("location", Json.str "Paris")] "location" =
      objGet [("extra", Json.null), ("location", Json.str "Paris")] "location" ∧
    executeResult [("location", Json.str "Paris")] =
      executeResult [("extra", Json.null), ("location", Json.str "Paris")] :=
  ⟨rfl, schema_consistent_with_execution.2.2
          [("location", Json.str "Paris")]
          [("extra", Json.null), ("location", Json.str "Paris")] rfl⟩

/-- C8: the program is deterministic and stateless — the run outcome is a
function of the argument vector alone, so two runs on the same arguments
produce the same printed output and the same exit behavior. -/
theorem run_deterministic (argv : List String) (r1 r2 : Except PyError String)
    (h1 : runTool argv = r1) (h2 : runTool argv = r2) : r1 = r2 :=
  h1.symm.trans h2

/-- C8 witness: two runs with no arguments both print the usage line. -/
theorem run_deterministic_witness :
    runTool ["weather.py"] = Except.ok usageMessage ∧
    (Except.ok usageMessage : Except PyError String) = Except.ok usageMessage :=
  ⟨rfl, run_deterministic ["weather.py"] (Except.ok usageMessage)
          (Except.ok usageMessage) rfl rfl⟩

/-- C9: every `--execute` invocation whose payload parses as valid JSON
that is not an object terminates with an uncaught error (the parsed value
has no `.get` method) rather than printing a result — a second failure
path beyond malformed JSON. -/
theorem execute_nonobject_errors (a0 s : String) (rest : List String) (j : Json)
    (hp : Json.parse s = some j) (hno : j.isObj = false) :
    runTool (a0 :: "--execute" :: s :: rest) = .error PyError.attributeError := by
  rw [exec_branch a0 s rest, hp]
  cases j with
  | obj fields => simp [Json.isObj] at hno
  | null => rfl
  | bool b => rfl
  | num n => rfl
  | float m e => rfl
  | str s2 => rfl
  | arr xs => rfl

/-- C9 witness: the payload `[1]` parses as a JSON array and the run dies
with the attribute error. -/
theorem execute_nonobject_errors_witness :
    Json.parse "[1]" = some (Json.arr [Json.num 1]) ∧
    (Json.arr [Json.num 1]).isObj = false ∧
    runTool ["weather.py", "--execute", "[1]"] = .error PyError.attributeError :=
  ⟨rfl, rfl,
    execute_nonobject_errors "weather.py" "[1]" [] (Json.arr [Json.num 1]) rfl rfl⟩

/-- C10: arguments beyond the recognized mode are ignored: extra arguments
after `--schema` do not change the printed schema, and arguments from the
third onward after `--execute` and its payload do not change the printed
result. -/
theorem extra_args_ignored :
    (∀ (a0 : String) (rest : List String),
        runTool (a0 :: "--schema" :: rest) = runTool [a0, "--schema"]) ∧
    (∀ (a0 s : String) (rest : List String),
        runTool (a0 :: "--execute" :: s :: rest) = runTool [a0, "--execute", s]) := by
  constructor
  · intro a0 rest
    simp [runTool]
  · intro a0 s rest
    simp [runTool]
